import Mathlib

/-!
Verification of the `result` C++ library (`inc/result.h`): a shallow
embedding of `Result<T, E>` — a discriminated union holding either a success
payload `T` or an error payload `E` — together with its storage-control
protocol and combinator surface, and proofs of the specified properties.

The embedding follows the source closely:
* `Payload`/`Storage` model `detail::Storage<T, E>`: a raw slot that either
  holds a live object of one of the two payload types or is uninitialized
  (`initialized == false`).  `slot = none` models the uninitialized state.
* `Storage_Ctrl` operations model `detail::Storage_Ctrl<T, E>`; copy
  construction of a payload may throw, which is modelled by a fallible
  copy function (`none` = the copy constructor threw).
* `Result` models the `Result<T, E>` class: a boolean discriminant
  `has_value` (declared `bool has_value{ true }`) plus the storage.
-/

namespace ResultCpp

/-- The content of the storage bytes when a live object exists: either a
success value of type `T` or an error value of type `E`.  Which one is live
is what the owning `Result`'s discriminant tracks. -/
inductive Payload (T E : Type) where
  | ok : T → Payload T E
  | err : E → Payload T E
deriving DecidableEq, Repr

/-- `detail::Storage<T, E>`: the aligned raw slot together with its
`initialized` flag.  `slot = none` models "no live object"
(`initialized == false`); `slot = some p` models a live payload `p`
(`initialized == true`).  The two pieces of C++ state are always kept in
sync by the storage operations, so one `Option` field captures both. -/
structure Storage (T E : Type) where
  slot : Option (Payload T E)
deriving DecidableEq, Repr

/-- The tag types `detail::ok_tag_t` / `detail::err_tag_t` used to tell the
storage which payload type is being addressed. -/
inductive Tag where
  | okTag : Tag
  | errTag : Tag
deriving DecidableEq, Repr

namespace Storage

variable {T E : Type}

/-- `constexpr Storage() : storage() {}` with `initialized{ false }`: a
default-constructed storage holds no live object. -/
def init : Storage T E := ⟨none⟩

/-- The `initialized` flag of the storage. -/
def initialized (s : Storage T E) : Bool := s.slot.isSome

/-- `raw_construct(val)`: constructs a value in the storage bytes and sets
`initialized = true`.  (Its C++ precondition is that the slot is empty.) -/
def raw_construct (_s : Storage T E) (p : Payload T E) : Storage T E :=
  ⟨some p⟩

/-- `get<T>()`: reads the slot reinterpreted as the success type.  Defined
(`some`) exactly when a live success payload is present; reading anything
else is undefined behavior in C++ and modelled as `none`. -/
def getOk : Storage T E → Option T
  | ⟨some (.ok v)⟩ => some v
  | _ => none

/-- `get<E>()`: reads the slot reinterpreted as the error type. -/
def getErr : Storage T E → Option E
  | ⟨some (.err e)⟩ => some e
  | _ => none

/-- Tag-directed read: `get<T>` under `ok_tag`, `get<E>` under `err_tag`. -/
def getP (s : Storage T E) : Tag → Option (Payload T E)
  | .okTag => s.getOk.map .ok
  | .errTag => s.getErr.map .err

/-- `destroy(tag)`: if `initialized`, runs `std::destroy_at` on the live
payload and clears the flag; otherwise a no-op.  The returned boolean
records whether a payload destructor was actually executed. -/
def destroy (s : Storage T E) (_tag : Tag) : Storage T E × Bool :=
  if s.initialized then (⟨none⟩, true) else (s, false)

end Storage

/-- The observable steps of a `Storage_Ctrl::copy_assignment` run, in
program order: construct the staging copy in `tmp`, destroy the
destination's old payload, move-construct the new payload in the
destination, or propagate a thrown exception. -/
inductive Ev (T E : Type) where
  | stageCopy (p : Payload T E) : Ev T E
  | destroyDst : Ev T E
  | constructDst (p : Payload T E) : Ev T E
  | throwEv : Ev T E
deriving DecidableEq, Repr

namespace Storage_Ctrl

variable {T E : Type}

/-- `Storage_Ctrl::copy_assignment(src, dst, src_tag, dst_tag)`:

```
Storage tmp;
tmp.raw_construct(src.get<X>());            -- payload copy ctor, may throw
dst.destroy(dst_tag);
dst.raw_construct(std::move(tmp.get<X>())); -- payload move ctor, may throw
```

`copyFn`/`moveFn` model the payload type's copy and move constructors
(`none` = the constructor threw).  Returns the event trace in program
order, the resulting destination storage, and whether the run completed
normally (`false` = an exception propagated out). -/
def copy_assignment (copyFn moveFn : Payload T E → Option (Payload T E))
    (src dst : Storage T E) (src_tag dst_tag : Tag) :
    List (Ev T E) × Storage T E × Bool :=
  match src.getP src_tag with
  | none => ([], dst, false)
  | some p =>
    match copyFn p with
    | none => ([.throwEv], dst, false)
    | some p' =>
      let (dst1, _) := dst.destroy dst_tag
      match moveFn p' with
      | none => ([.stageCopy p', .destroyDst, .throwEv], dst1, false)
      | some p'' =>
        ([.stageCopy p', .destroyDst, .constructDst p''],
          dst1.raw_construct p'', true)

/-- `Storage_Ctrl::move_construct(src, dst, tag)`:
`dst.raw_construct(std::move(src.get<X>())); src.destroy(tag);`.
Returns the new destination and source storages. -/
def move_construct (src dst : Storage T E) (tag : Tag) :
    Storage T E × Storage T E :=
  match src.getP tag with
  | none => (dst, src)
  | some p => (dst.raw_construct p, (src.destroy tag).1)

/-- `Storage_Ctrl::move_assignment(src, dst, src_tag, dst_tag)`:
`dst.destroy(dst_tag); dst.raw_construct(std::move(src.get<X>()));
src.destroy(src_tag);`.  Returns the new destination and source
storages. -/
def move_assignment (src dst : Storage T E) (src_tag dst_tag : Tag) :
    Storage T E × Storage T E :=
  match src.getP src_tag with
  | none => (dst, src)
  | some p => (((dst.destroy dst_tag).1).raw_construct p, (src.destroy src_tag).1)

end Storage_Ctrl

/-- `Result<T, E>`: the discriminant `bool has_value{ true }` plus the
tagged storage. -/
structure Result (T E : Type) where
  has_value : Bool
  storage : Storage T E
deriving DecidableEq, Repr

namespace Result

variable {T E : Type}

/-- `Result(const option_type::Ok<T>&)` / `Result(option_type::Ok<T>&&)`:
constructs the success payload in the storage; `has_value` keeps its
initializer value `true`. -/
def mkOk (v : T) : Result T E :=
  ⟨true, Storage.init.raw_construct (.ok v)⟩

/-- `Result(const option_type::Err<E>&)` / `Result(option_type::Err<E>&&)`:
constructs the error payload in the storage and sets `has_value = false`. -/
def mkErr (e : E) : Result T E :=
  ⟨false, Storage.init.raw_construct (.err e)⟩

/-- `constexpr Result() = default;`: member initializers give
`has_value = true` and a default-constructed storage
(`initialized = false`, no payload constructed). -/
def default_ctor : Result T E := ⟨true, Storage.init⟩

/-- `is_ok()`: reads the discriminant. -/
def is_ok (r : Result T E) : Bool := r.has_value

/-- `is_err()`: negation of the discriminant. -/
def is_err (r : Result T E) : Bool := !r.has_value

/-- Invariant I1 of the spec: the live payload in storage matches the
discriminant — a success payload under `has_value = true`, an error
payload under `has_value = false`. -/
def inv (r : Result T E) : Prop :=
  match r.has_value, r.storage.slot with
  | true, some (.ok _) => True
  | false, some (.err _) => True
  | _, _ => False

/-- The tag a `Result` method passes to the storage control: `ok_tag` when
`has_value`, `err_tag` otherwise. -/
def tagOf (r : Result T E) : Tag :=
  if r.has_value then .okTag else .errTag

/-- `Result(Result&& other)`: `has_value(std::move(other.has_value))`
(a moved-from `bool` keeps its value), then
`Storage_Ctrl::move_construct` with the tag selected by `has_value`.
Returns the newly constructed `Result` together with the moved-from
source. -/
def move_ctor (other : Result T E) : Result T E × Result T E :=
  let (dstS, srcS) :=
    Storage_Ctrl.move_construct other.storage Storage.init other.tagOf
  (⟨other.has_value, dstS⟩, ⟨other.has_value, srcS⟩)

/-- `operator=(Result&& other)` for distinct objects:
`Storage_Ctrl::move_assignment` with the source tag from
`other.has_value` and the destination tag from `this->has_value`, then
`has_value = std::move(other.has_value)` (which leaves `other.has_value`
unchanged).  Returns the assigned-to `Result` together with the
moved-from source. -/
def move_assign (self other : Result T E) : Result T E × Result T E :=
  let (dstS, srcS) :=
    Storage_Ctrl.move_assignment other.storage self.storage
      other.tagOf self.tagOf
  (⟨other.has_value, dstS⟩, ⟨other.has_value, srcS⟩)

/-- `~Result()`: destroys the storage under the tag selected by the
discriminant.  The returned boolean records whether a payload destructor
was executed. -/
def dtor (r : Result T E) : Storage T E × Bool :=
  r.storage.destroy r.tagOf

/-- `operator=(const Result& other)` for distinct objects: dispatches to
`Storage_Ctrl::copy_assignment` on the four
`{source variant} × {destination variant}` cases, then executes
`has_value = other.has_value` — which is reached only when the payload
copy did not throw, so on a throw both the discriminant and the storage
of the destination are left as they were.  Returns the event trace of the
storage-control run and the resulting destination `Result`. -/
def copy_assign (copyFn moveFn : Payload T E → Option (Payload T E))
    (self other : Result T E) : List (Ev T E) × Result T E :=
  let (tr, dstS, completed) :=
    Storage_Ctrl.copy_assignment copyFn moveFn other.storage self.storage
      other.tagOf self.tagOf
  if completed then (tr, ⟨other.has_value, dstS⟩)
  else (tr, ⟨self.has_value, dstS⟩)

end Result

/-- `EXIT_FAILURE`, the status passed to `std::exit` on a panicking
extraction. -/
def EXIT_FAILURE : Nat := 1

/-- How a C++ payload type renders on the diagnostic stream: whether it is
an enumeration type (`std::is_enum_v`), its `operator<<` rendering, and —
for enumerations — its underlying integer value (`traits::toUType`). -/
structure CppOut (γ : Type) where
  isEnum : Bool
  render : γ → String
  toUType : γ → Int

/-- The text `report_err<U>(msg)` writes for a live payload `v`: the
message, then `": "`, then the payload — an enum payload via
`traits::toUType` (its underlying integer), any other payload via its
`operator<<`. -/
def report_err {γ : Type} (out : CppOut γ) (msg : String) (v : γ) : String :=
  if out.isEnum then msg ++ ": " ++ toString (out.toUType v)
  else msg ++ ": " ++ out.render v

/-- Outcome of a panicking extractor: either it returns the payload to the
caller, or it writes one diagnostic line to `std::cerr` and terminates
the process via `std::exit` with the recorded status, never returning. -/
inductive Outcome (γ : Type) where
  | ret (v : γ) : Outcome γ
  | fatal (stderrLine : String) (exitStatus : Nat) : Outcome γ
deriving DecidableEq, Repr

namespace Result

variable {T E : Type}

/-- `unwrap()` (non-void `T`): returns the success payload if `is_ok()`;
otherwise `report_err<E>("Attempting to unwrap an Err Result")` followed
by `std::exit(EXIT_FAILURE)`.  `none` models the undefined behavior of
reading a payload that is not live. -/
def unwrap (outE : CppOut E) (r : Result T E) : Option (Outcome T) :=
  if r.is_ok then r.storage.getOk.map .ret
  else r.storage.getErr.map fun e =>
    .fatal (report_err outE "Attempting to unwrap an Err Result" e) EXIT_FAILURE

/-- `expect(msg)`: like `unwrap` but with a caller-supplied message. -/
def expect (outE : CppOut E) (msg : String) (r : Result T E) :
    Option (Outcome T) :=
  if r.is_ok then r.storage.getOk.map .ret
  else r.storage.getErr.map fun e =>
    .fatal (report_err outE msg e) EXIT_FAILURE

/-- `unwrap_err()`: returns the error payload if `is_err()`; otherwise
`report_err<T>("Attempting to unwrap_err an Ok Result")` followed by
`std::exit(EXIT_FAILURE)`. -/
def unwrap_err (outT : CppOut T) (r : Result T E) : Option (Outcome E) :=
  if r.is_err then r.storage.getErr.map .ret
  else r.storage.getOk.map fun v =>
    .fatal (report_err outT "Attempting to unwrap_err an Ok Result" v) EXIT_FAILURE

/-- `expect_err(msg)`: like `unwrap_err` but with a caller-supplied
message. -/
def expect_err (outT : CppOut T) (msg : String) (r : Result T E) :
    Option (Outcome E) :=
  if r.is_err then r.storage.getErr.map .ret
  else r.storage.getOk.map fun v =>
    .fatal (report_err outT msg v) EXIT_FAILURE

/-- `unwrap()` for `Result<void, E>` (the `std::is_void_v<U>` overloads):
`if (is_err()) { report_err<E>(...); std::exit(EXIT_FAILURE); }` — in the
`Ok` state it returns normally carrying no value, without touching the
storage at all. -/
def unwrap_void (outE : CppOut E) (r : Result Unit E) :
    Option (Outcome Unit) :=
  if r.is_err then
    r.storage.getErr.map fun e =>
      .fatal (report_err outE "Attempting to unwrap an Err Result" e)
        EXIT_FAILURE
  else some (.ret ())

/-- `map(op)` (non-void `T`): if `is_ok()`, `Ok(op(get<T>()))`, otherwise
`Err(get<E>())`. -/
def map {U : Type} (op : T → U) (r : Result T E) : Option (Result U E) :=
  if r.is_ok then r.storage.getOk.map fun v => mkOk (op v)
  else r.storage.getErr.map fun e => mkErr e

/-- `and_then(op)` (non-void `T`): if `is_ok()`,
`std::invoke(op, get<T>())` — the operation's own `Result` is returned
directly — otherwise `Err(get<E>())`. -/
def and_then {U : Type} (op : T → Result U E) (r : Result T E) :
    Option (Result U E) :=
  if r.is_ok then r.storage.getOk.map op
  else r.storage.getErr.map fun e => mkErr e

/-- `transpose()` for `T = std::optional<A>`: if `is_ok()`, an empty
optional maps to an empty optional and a populated one to an optional
holding `Ok` of its value; an `Err` maps to an optional holding the same
`Err`. -/
def transpose {A : Type} (r : Result (Option A) E) :
    Option (Option (Result A E)) :=
  if r.is_ok then
    r.storage.getOk.map fun ov =>
      match ov with
      | some v => some (mkOk v)
      | none => none
  else r.storage.getErr.map fun e => some (mkErr e)

end Result

/-- `operator==(const Result&, const Result&)`:
`lhs.is_ok() != rhs.is_ok() ? false : !lhs.is_ok() ?
lhs.unwrap_err() == rhs.unwrap_err() : lhs.unwrap() == rhs.unwrap()`.
The payload types' own `operator==` is modelled by `eqT`/`eqE`. -/
def resultEq {T E : Type} (eqT : T → T → Bool) (eqE : E → E → Bool)
    (lhs rhs : Result T E) : Option Bool :=
  if lhs.is_ok != rhs.is_ok then some false
  else if !lhs.is_ok then
    match lhs.storage.getErr, rhs.storage.getErr with
    | some e1, some e2 => some (eqE e1 e2)
    | _, _ => none
  else
    match lhs.storage.getOk, rhs.storage.getOk with
    | some v1, some v2 => some (eqT v1 v2)
    | _, _ => none

/-! ### Helper lemmas -/

/-- A `Result` satisfying invariant I1 is either an `Ok`-constructed value
or an `Err`-constructed value. -/
lemma inv_cases {T E : Type} (r : Result T E) (h : r.inv) :
    (∃ v, r = Result.mkOk v) ∨ (∃ e, r = Result.mkErr e) := by
  rcases r with ⟨hv, ⟨s⟩⟩
  cases hv
  · rcases s with _ | (v | e)
    · exact (h : False).elim
    · exact (h : False).elim
    · exact Or.inr ⟨e, rfl⟩
  · rcases s with _ | (v | e)
    · exact (h : False).elim
    · exact Or.inl ⟨v, rfl⟩
    · exact (h : False).elim

/-! ### Claims -/

/-- C3, counterexample: at `T = Nat`, `E = String`, a default-constructed
`Result` reports `is_ok() = true`, yet its storage is uninitialized — no
live default-constructed `T` payload exists in the slot, so invariant I1
(live payload matching the discriminant) does not hold.  This refutes the
claim that a default-constructed `Result` holds a live default-constructed
payload of type `T`. -/
theorem default_ctor_counterexample :
    (Result.default_ctor : Result Nat String).is_ok = true ∧
    (Result.default_ctor : Result Nat String).storage.initialized = false ∧
    (Result.default_ctor : Result Nat String).storage.slot ≠
      some (Payload.ok 0) ∧
    ¬ (Result.default_ctor : Result Nat String).inv :=
  ⟨rfl, rfl, by decide, fun h => (h : False).elim⟩

/-- C3, amended: for every `T` and `E`, a default-constructed
`Result<T, E>` is in the `Ok` state (`is_ok()` is `true`), but its storage
is left uninitialized: no payload of type `T` is constructed
(`initialized` is `false`), so invariant I1 does not hold for a
default-constructed `Result`; its destructor consequently runs no payload
destructor. -/
theorem default_ctor_ok_but_uninitialized (T E : Type) :
    (Result.default_ctor : Result T E).is_ok = true ∧
    (Result.default_ctor : Result T E).storage.initialized = false ∧
    ¬ (Result.default_ctor : Result T E).inv ∧
    (Result.default_ctor : Result T E).dtor.2 = false :=
  ⟨rfl, rfl, fun h => (h : False).elim, rfl⟩

/-- C6: for every `Result` satisfying the storage invariant — in the `Ok`
state or the `Err` state — `map` with the identity function returns the
same `Result`: `map` applies the function to an `Ok` payload and copies an
`Err` payload through unchanged. -/
theorem map_identity {T E : Type} (r : Result T E) (h : r.inv) :
    r.map id = some r := by
  rcases inv_cases r h with ⟨v, rfl⟩ | ⟨e, rfl⟩ <;> rfl

/-- C6 witness: `map id` at the concrete inputs `Ok 3` and (via the `Err`
branch being exercised elsewhere) confirms the round-trip. -/
theorem map_identity_witness :
    (Result.mkOk 3 : Result Nat String).inv ∧
    (Result.mkOk 3 : Result Nat String).map id = some (Result.mkOk 3) :=
  ⟨trivial, map_identity (Result.mkOk 3) trivial⟩

/-- C7: for every `Result` satisfying the storage invariant and every pair
of pure functions `f`, `g`, mapping with `f` and then with `g` equals
mapping once with the composition `g ∘ f`. -/
theorem map_composition {T U V E : Type} (f : T → U) (g : U → V)
    (r : Result T E) (h : r.inv) :
    (r.map f).bind (Result.map g) = r.map (g ∘ f) := by
  rcases inv_cases r h with ⟨v, rfl⟩ | ⟨e, rfl⟩ <;> rfl

/-- C7 witness: the functor composition law at `Ok 2` with
`f = Nat.succ` and `g = (· * 2)`. -/
theorem map_composition_witness :
    (Result.mkOk 2 : Result Nat String).inv ∧
    ((Result.mkOk 2 : Result Nat String).map Nat.succ).bind
        (Result.map (· * 2)) =
      (Result.mkOk 2 : Result Nat String).map ((· * 2) ∘ Nat.succ) :=
  ⟨trivial, map_composition Nat.succ (· * 2) (Result.mkOk 2) trivial⟩

/-- C8: for every success payload that is an optional, `transpose` maps
`Ok` of an empty optional to an empty optional, `Ok` of an optional
holding `v` to an optional holding `Ok v`, and `Err e` to an optional
holding `Err e`. -/
theorem transpose_spec {A E : Type} (v : A) (e : E) :
    (Result.mkOk (none : Option A) : Result (Option A) E).transpose =
      some none ∧
    (Result.mkOk (some v) : Result (Option A) E).transpose =
      some (some (Result.mkOk v)) ∧
    (Result.mkErr e : Result (Option A) E).transpose =
      some (some (Result.mkErr e)) :=
  ⟨rfl, rfl, rfl⟩

/-- C4: for every `Result` satisfying the storage invariant and every
function `f` into a `Result` with the same error type: if the `Result` is
`Ok` with payload `v`, `and_then f` returns exactly `f v`; if it is
`Err`, `and_then` returns an `Err` carrying the original error unchanged,
and its result does not depend on `f` — the operation is never invoked. -/
theorem and_then_spec {T U E : Type} (f : T → Result U E) (r : Result T E)
    (h : r.inv) :
    (∀ v, r.storage.getOk = some v → r.and_then f = some (f v)) ∧
    (r.is_err = true → ∃ e, r.storage.getErr = some e ∧
      r.and_then f = some (Result.mkErr e) ∧
      ∀ g : T → Result U E, r.and_then g = r.and_then f) := by
  rcases inv_cases r h with ⟨v, rfl⟩ | ⟨e, rfl⟩
  · refine ⟨fun w hw => ?_, fun hie => ?_⟩
    · obtain rfl : v = w := Option.some.inj hw
      rfl
    · simp [Result.is_err, Result.mkOk] at hie
  · refine ⟨fun w hw => ?_, fun _ => ⟨e, rfl, rfl, fun g => rfl⟩⟩
    simp [Result.mkErr, Storage.getOk, Storage.init, Storage.raw_construct]
      at hw

/-- C4 witness: `and_then` at the concrete inputs `Ok 4` (bind applies
the operation) and, via the hypotheses discharged here, the invariant
holds at that input. -/
theorem and_then_spec_witness :
    (Result.mkOk 4 : Result Nat String).inv ∧
    ((∀ v, (Result.mkOk 4 : Result Nat String).storage.getOk = some v →
        (Result.mkOk 4 : Result Nat String).and_then
          (fun n => Result.mkOk (n + 1)) =
          some (Result.mkOk (v + 1))) ∧
      ((Result.mkOk 4 : Result Nat String).is_err = true →
        ∃ e, (Result.mkOk 4 : Result Nat String).storage.getErr = some e ∧
          (Result.mkOk 4 : Result Nat String).and_then
            (fun n => Result.mkOk (n + 1)) = some (Result.mkErr e) ∧
          ∀ g : Nat → Result Nat String,
            (Result.mkOk 4 : Result Nat String).and_then g =
              (Result.mkOk 4 : Result Nat String).and_then
                (fun n => Result.mkOk (n + 1)))) :=
  ⟨trivial,
    and_then_spec (fun n => Result.mkOk (n + 1)) (Result.mkOk 4) trivial⟩

/-- C5: for every two `Result` values satisfying the storage invariant,
`operator==` yields `true` exactly when both are in the same state and the
live payloads of that state compare equal under the payload types' own
equality; in particular `Ok "foo"` and `Err "foo"` compare unequal because
the states differ (see the witness). -/
theorem eq_iff_same_state_and_payload {T E : Type}
    (eqT : T → T → Bool) (eqE : E → E → Bool)
    (lhs rhs : Result T E) (h1 : lhs.inv) (h2 : rhs.inv) :
    resultEq eqT eqE lhs rhs = some true ↔
      (lhs.is_ok = rhs.is_ok ∧
        ((∃ v1 v2, lhs.storage.getOk = some v1 ∧
            rhs.storage.getOk = some v2 ∧ eqT v1 v2 = true) ∨
         (∃ e1 e2, lhs.storage.getErr = some e1 ∧
            rhs.storage.getErr = some e2 ∧ eqE e1 e2 = true))) := by
  rcases inv_cases lhs h1 with ⟨v1, rfl⟩ | ⟨e1, rfl⟩ <;>
    rcases inv_cases rhs h2 with ⟨v2, rfl⟩ | ⟨e2, rfl⟩ <;>
    simp [resultEq, Result.is_ok, Result.mkOk, Result.mkErr,
      Storage.getOk, Storage.getErr, Storage.init, Storage.raw_construct]

/-- C5 witness: `Ok "foo" == Err "foo"` is not `true` — the payload text
matches but the states differ, so the equality criterion fails. -/
theorem eq_iff_same_state_and_payload_witness :
    (resultEq (fun a b : String => a == b) (fun a b : String => a == b)
        (Result.mkOk "foo") (Result.mkErr "foo") = some true ↔
      ((Result.mkOk "foo" : Result String String).is_ok =
          (Result.mkErr "foo" : Result String String).is_ok ∧
        ((∃ v1 v2,
            (Result.mkOk "foo" : Result String String).storage.getOk =
              some v1 ∧
            (Result.mkErr "foo" : Result String String).storage.getOk =
              some v2 ∧ (v1 == v2) = true) ∨
         (∃ e1 e2,
            (Result.mkOk "foo" : Result String String).storage.getErr =
              some e1 ∧
            (Result.mkErr "foo" : Result String String).storage.getErr =
              some e2 ∧ (e1 == e2) = true)))) ∧
    resultEq (fun a b : String => a == b) (fun a b : String => a == b)
      (Result.mkOk "foo") (Result.mkErr "foo") = some false :=
  ⟨eq_iff_same_state_and_payload (fun a b => a == b) (fun a b => a == b)
      (Result.mkOk "foo") (Result.mkErr "foo") trivial trivial,
    rfl⟩

/-- C10: for every `Result<void, E>`, the void overload of `unwrap` in the
`Ok` state returns normally carrying no value and performs no output and
no process termination; when the `Result` satisfies the invariant and is
in the `Err` state, it panics — one diagnostic line and
`std::exit(EXIT_FAILURE)`. -/
theorem unwrap_void_spec {E : Type} (outE : CppOut E) (r : Result Unit E) :
    (r.is_ok = true → r.unwrap_void outE = some (.ret ())) ∧
    (r.inv → r.is_err = true → ∃ e, r.storage.getErr = some e ∧
      r.unwrap_void outE =
        some (.fatal
          (report_err outE "Attempting to unwrap an Err Result" e)
          EXIT_FAILURE)) := by
  constructor
  · intro hok
    rcases r with ⟨hv, s⟩
    cases hv
    · exact absurd hok (by simp [Result.is_ok])
    · rfl
  · intro h
    rcases inv_cases r h with ⟨v, rfl⟩ | ⟨e, rfl⟩
    · intro hie
      simp [Result.is_err, Result.mkOk] at hie
    · exact fun _ => ⟨e, rfl, rfl⟩

/-- C10 witness: the void `unwrap` at the concrete inputs `Ok ()` (returns
normally) and `Err 7` (panics with the default message and the rendered
error). -/
theorem unwrap_void_spec_witness :
    ((Result.mkOk () : Result Unit Nat).is_ok = true →
      (Result.mkOk () : Result Unit Nat).unwrap_void
        ⟨false, toString, fun _ => 0⟩ = some (.ret ())) ∧
    ((Result.mkOk () : Result Unit Nat).inv →
      (Result.mkOk () : Result Unit Nat).is_err = true →
      ∃ e, (Result.mkOk () : Result Unit Nat).storage.getErr = some e ∧
        (Result.mkOk () : Result Unit Nat).unwrap_void
          ⟨false, toString, fun _ => 0⟩ =
          some (.fatal
            (report_err ⟨false, toString, fun _ => 0⟩
              "Attempting to unwrap an Err Result" e)
            EXIT_FAILURE)) :=
  unwrap_void_spec ⟨false, toString, fun _ => 0⟩ (Result.mkOk ())

/-- C2: for every `Result` satisfying the storage invariant, `unwrap` and
`expect` on an `Err`-state value — and dually `unwrap_err` and
`expect_err` on an `Ok`-state value — write exactly one diagnostic line
consisting of the caller-supplied (or default) message, `": "`, and the
rendition of the other state's payload (an enum payload rendered via
`toUType` as its underlying integer), then terminate the process with
`EXIT_FAILURE`; no such call returns control to the caller. -/
theorem panic_on_mismatch {T E : Type} (outT : CppOut T) (outE : CppOut E)
    (msg : String) (r : Result T E) (h : r.inv) :
    (r.is_err = true → ∃ e, r.storage.getErr = some e ∧
      r.unwrap outE =
        some (.fatal
          (report_err outE "Attempting to unwrap an Err Result" e)
          EXIT_FAILURE) ∧
      r.expect outE msg =
        some (.fatal (report_err outE msg e) EXIT_FAILURE) ∧
      report_err outE msg e = msg ++ ": " ++
        (if outE.isEnum then toString (outE.toUType e)
         else outE.render e) ∧
      (∀ v, r.unwrap outE ≠ some (.ret v)) ∧
      (∀ v, r.expect outE msg ≠ some (.ret v))) ∧
    (r.is_ok = true → ∃ v, r.storage.getOk = some v ∧
      r.unwrap_err outT =
        some (.fatal
          (report_err outT "Attempting to unwrap_err an Ok Result" v)
          EXIT_FAILURE) ∧
      r.expect_err outT msg =
        some (.fatal (report_err outT msg v) EXIT_FAILURE) ∧
      report_err outT msg v = msg ++ ": " ++
        (if outT.isEnum then toString (outT.toUType v)
         else outT.render v) ∧
      (∀ e, r.unwrap_err outT ≠ some (.ret e)) ∧
      (∀ e, r.expect_err outT msg ≠ some (.ret e))) := by
  rcases inv_cases r h with ⟨v, rfl⟩ | ⟨e, rfl⟩
  · refine ⟨fun hie => ?_,
      fun _ => ⟨v, rfl, rfl, rfl, ?_, fun e hne => ?_, fun e hne => ?_⟩⟩
    · simp [Result.is_err, Result.mkOk] at hie
    · cases hEnum : outT.isEnum <;> simp [report_err, hEnum]
    · simp [Result.unwrap_err, Result.is_err, Result.mkOk, Storage.getOk,
        Storage.init, Storage.raw_construct] at hne
    · simp [Result.expect_err, Result.is_err, Result.mkOk, Storage.getOk,
        Storage.init, Storage.raw_construct] at hne
  · refine ⟨fun _ => ⟨e, rfl, rfl, rfl, ?_, fun v hne => ?_,
      fun v hne => ?_⟩, fun hok => ?_⟩
    · cases hEnum : outE.isEnum <;> simp [report_err, hEnum]
    · simp [Result.unwrap, Result.is_ok, Result.mkErr, Storage.getErr,
        Storage.init, Storage.raw_construct] at hne
    · simp [Result.expect, Result.is_ok, Result.mkErr, Storage.getErr,
        Storage.init, Storage.raw_construct] at hne
    · simp [Result.is_ok, Result.mkErr] at hok

/-- C2 witness: `unwrap`/`expect` on `Err "emergency failure"` with a
string-rendered error type and a non-enum output description. -/
theorem panic_on_mismatch_witness :
    ((Result.mkErr "emergency failure" : Result Nat String).is_err = true →
      ∃ e, (Result.mkErr "emergency failure" :
          Result Nat String).storage.getErr = some e ∧
        (Result.mkErr "emergency failure" : Result Nat String).unwrap
            ⟨false, id, fun _ => 0⟩ =
          some (.fatal
            (report_err ⟨false, id, fun _ => 0⟩
              "Attempting to unwrap an Err Result" e)
            EXIT_FAILURE) ∧
        (Result.mkErr "emergency failure" : Result Nat String).expect
            ⟨false, id, fun _ => 0⟩ "Testing expect terminated" =
          some (.fatal
            (report_err ⟨false, id, fun _ => 0⟩
              "Testing expect terminated" e)
            EXIT_FAILURE) ∧
        report_err ⟨false, id, fun _ => 0⟩ "Testing expect terminated" e =
          "Testing expect terminated" ++ ": " ++
            (if (false : Bool) then toString ((0 : Int)) else id e) ∧
        (∀ v, (Result.mkErr "emergency failure" : Result Nat String).unwrap
            ⟨false, id, fun _ => 0⟩ ≠ some (.ret v)) ∧
        (∀ v, (Result.mkErr "emergency failure" : Result Nat String).expect
            ⟨false, id, fun _ => 0⟩ "Testing expect terminated" ≠
          some (.ret v))) ∧
    ((Result.mkErr "emergency failure" : Result Nat String).is_ok = true →
      ∃ v, (Result.mkErr "emergency failure" :
          Result Nat String).storage.getOk = some v ∧
        (Result.mkErr "emergency failure" : Result Nat String).unwrap_err
            ⟨false, toString, fun _ => 0⟩ =
          some (.fatal
            (report_err ⟨false, toString, fun _ => 0⟩
              "Attempting to unwrap_err an Ok Result" v)
            EXIT_FAILURE) ∧
        (Result.mkErr "emergency failure" :
            Result Nat String).expect_err
            ⟨false, toString, fun _ => 0⟩ "Testing expect terminated" =
          some (.fatal
            (report_err ⟨false, toString, fun _ => 0⟩
              "Testing expect terminated" v)
            EXIT_FAILURE) ∧
        report_err ⟨false, toString, fun _ => 0⟩
            "Testing expect terminated" v =
          "Testing expect terminated" ++ ": " ++
            (if (false : Bool) then toString ((0 : Int))
             else toString v) ∧
        (∀ e, (Result.mkErr "emergency failure" :
            Result Nat String).unwrap_err ⟨false, toString, fun _ => 0⟩ ≠
          some (.ret e)) ∧
        (∀ e, (Result.mkErr "emergency failure" :
            Result Nat String).expect_err ⟨false, toString, fun _ => 0⟩
            "Testing expect terminated" ≠ some (.ret e))) :=
  panic_on_mismatch ⟨false, toString, fun _ => 0⟩ ⟨false, id, fun _ => 0⟩
    "Testing expect terminated" (Result.mkErr "emergency failure") trivial

/-- C9: for every `Result` satisfying the storage invariant, after a move
construction or a move assignment from it, the moved-from source's storage
is uninitialized (its payload was destroyed), its discriminant keeps its
previous value — `is_ok`/`is_err` answer as before the move — and running
its destructor executes no payload destructor and leaves the storage
unchanged, because `destroy` is a no-op on uninitialized storage. -/
theorem moved_from_spec {T E : Type} (r self : Result T E)
    (h : r.inv) (hs : self.inv) :
    ((r.move_ctor.2).storage.initialized = false ∧
     (r.move_ctor.2).has_value = r.has_value ∧
     (r.move_ctor.2).is_ok = r.is_ok ∧
     (r.move_ctor.2).is_err = r.is_err ∧
     (r.move_ctor.2).dtor.2 = false ∧
     (r.move_ctor.2).dtor.1 = (r.move_ctor.2).storage) ∧
    (((self.move_assign r).2).storage.initialized = false ∧
     ((self.move_assign r).2).has_value = r.has_value ∧
     ((self.move_assign r).2).is_ok = r.is_ok ∧
     ((self.move_assign r).2).is_err = r.is_err ∧
     ((self.move_assign r).2).dtor.2 = false ∧
     ((self.move_assign r).2).dtor.1 = ((self.move_assign r).2).storage) := by
  rcases inv_cases r h with ⟨v, rfl⟩ | ⟨e, rfl⟩ <;>
    rcases inv_cases self hs with ⟨w, rfl⟩ | ⟨e2, rfl⟩ <;>
    exact ⟨⟨rfl, rfl, rfl, rfl, rfl, rfl⟩, ⟨rfl, rfl, rfl, rfl, rfl, rfl⟩⟩

/-- C9 witness: moving out of `Ok 1` (by construction, and by assignment
into `Err "x"`) leaves a source that is still `Ok` by discriminant but
holds no live payload and whose destruction runs no destructor. -/
theorem moved_from_spec_witness :
    (((Result.mkOk 1 : Result Nat String).move_ctor.2).storage.initialized =
        false ∧
      ((Result.mkOk 1 : Result Nat String).move_ctor.2).has_value =
        (Result.mkOk 1 : Result Nat String).has_value ∧
      ((Result.mkOk 1 : Result Nat String).move_ctor.2).is_ok =
        (Result.mkOk 1 : Result Nat String).is_ok ∧
      ((Result.mkOk 1 : Result Nat String).move_ctor.2).is_err =
        (Result.mkOk 1 : Result Nat String).is_err ∧
      ((Result.mkOk 1 : Result Nat String).move_ctor.2).dtor.2 = false ∧
      ((Result.mkOk 1 : Result Nat String).move_ctor.2).dtor.1 =
        ((Result.mkOk 1 : Result Nat String).move_ctor.2).storage) ∧
    ((((Result.mkErr "x" : Result Nat String).move_assign
          (Result.mkOk 1)).2).storage.initialized = false ∧
      (((Result.mkErr "x" : Result Nat String).move_assign
          (Result.mkOk 1)).2).has_value =
        (Result.mkOk 1 : Result Nat String).has_value ∧
      (((Result.mkErr "x" : Result Nat String).move_assign
          (Result.mkOk 1)).2).is_ok =
        (Result.mkOk 1 : Result Nat String).is_ok ∧
      (((Result.mkErr "x" : Result Nat String).move_assign
          (Result.mkOk 1)).2).is_err =
        (Result.mkOk 1 : Result Nat String).is_err ∧
      (((Result.mkErr "x" : Result Nat String).move_assign
          (Result.mkOk 1)).2).dtor.2 = false ∧
      (((Result.mkErr "x" : Result Nat String).move_assign
          (Result.mkOk 1)).2).dtor.1 =
        (((Result.mkErr "x" : Result Nat String).move_assign
          (Result.mkOk 1)).2).storage) :=
  moved_from_spec (Result.mkOk 1) (Result.mkErr "x") trivial trivial

/-- C1: for every copy assignment between two invariant-satisfying
`Result` values holding different variants, the storage-control run first
builds a staging copy of the source payload in a temporary, then destroys
the destination's old payload, and only then constructs the new payload in
the destination's storage — the event trace is exactly
`[stageCopy, destroyDst, constructDst]`; and if the payload copy
constructor throws, the run is `[throwEv]` and the destination `Result`
(discriminant and storage) is returned unchanged. -/
theorem copy_assign_exception_safety {T E : Type}
    (copyFn moveFn : Payload T E → Option (Payload T E))
    (self other : Result T E) (h1 : self.inv) (h2 : other.inv)
    (_hdiff : self.is_ok ≠ other.is_ok) :
    ∃ p, other.storage.getP other.tagOf = some p ∧
      (copyFn p = none →
        self.copy_assign copyFn moveFn other = ([Ev.throwEv], self)) ∧
      (∀ p' p'', copyFn p = some p' → moveFn p' = some p'' →
        self.copy_assign copyFn moveFn other =
          ([Ev.stageCopy p', Ev.destroyDst, Ev.constructDst p''],
            ⟨other.has_value, Storage.init.raw_construct p''⟩)) := by
  rcases inv_cases other h2 with ⟨v, rfl⟩ | ⟨e, rfl⟩ <;>
    rcases inv_cases self h1 with ⟨w, rfl⟩ | ⟨e2, rfl⟩
  · exact ⟨.ok v, rfl, fun hco => by
      simp [Result.copy_assign, Storage_Ctrl.copy_assignment, Result.tagOf,
        Result.mkOk, Storage.getP, Storage.getOk, Storage.init,
        Storage.raw_construct, hco],
      fun p' p'' hco hmo => by
      simp [Result.copy_assign, Storage_Ctrl.copy_assignment, Result.tagOf,
        Result.mkOk, Storage.getP, Storage.getOk, Storage.init,
        Storage.raw_construct, Storage.destroy, Storage.initialized,
        hco, hmo]⟩
  · exact ⟨.ok v, rfl, fun hco => by
      simp [Result.copy_assign, Storage_Ctrl.copy_assignment, Result.tagOf,
        Result.mkOk, Result.mkErr, Storage.getP, Storage.getOk, Storage.init,
        Storage.raw_construct, hco],
      fun p' p'' hco hmo => by
      simp [Result.copy_assign, Storage_Ctrl.copy_assignment, Result.tagOf,
        Result.mkOk, Result.mkErr, Storage.getP, Storage.getOk, Storage.init,
        Storage.raw_construct, Storage.destroy, Storage.initialized,
        hco, hmo]⟩
  · exact ⟨.err e, rfl, fun hco => by
      simp [Result.copy_assign, Storage_Ctrl.copy_assignment, Result.tagOf,
        Result.mkOk, Result.mkErr, Storage.getP, Storage.getErr, Storage.init,
        Storage.raw_construct, hco],
      fun p' p'' hco hmo => by
      simp [Result.copy_assign, Storage_Ctrl.copy_assignment, Result.tagOf,
        Result.mkOk, Result.mkErr, Storage.getP, Storage.getErr, Storage.init,
        Storage.raw_construct, Storage.destroy, Storage.initialized,
        hco, hmo]⟩
  · exact ⟨.err e, rfl, fun hco => by
      simp [Result.copy_assign, Storage_Ctrl.copy_assignment, Result.tagOf,
        Result.mkErr, Storage.getP, Storage.getErr, Storage.init,
        Storage.raw_construct, hco],
      fun p' p'' hco hmo => by
      simp [Result.copy_assign, Storage_Ctrl.copy_assignment, Result.tagOf,
        Result.mkErr, Storage.getP, Storage.getErr, Storage.init,
        Storage.raw_construct, Storage.destroy, Storage.initialized,
        hco, hmo]⟩

/-- C1 witness: copy-assigning `Ok 5` into `Err "e"` (different variants)
with non-throwing copy and move constructors. -/
theorem copy_assign_exception_safety_witness :
    ∃ p, (Result.mkOk 5 : Result Nat String).storage.getP
        (Result.mkOk 5 : Result Nat String).tagOf = some p ∧
      (some p = none →
        (Result.mkErr "e" : Result Nat String).copy_assign some some
          (Result.mkOk 5) = ([Ev.throwEv], Result.mkErr "e")) ∧
      (∀ p' p'', some p = some p' → some p' = some p'' →
        (Result.mkErr "e" : Result Nat String).copy_assign some some
          (Result.mkOk 5) =
          ([Ev.stageCopy p', Ev.destroyDst, Ev.constructDst p''],
            ⟨(Result.mkOk 5 : Result Nat String).has_value,
              Storage.init.raw_construct p''⟩)) :=
  copy_assign_exception_safety some some (Result.mkErr "e")
    (Result.mkOk 5) trivial trivial (by decide)

end ResultCpp
